import Mathlib

/-!
Verification development for the BaseJob abstraction of libqmatrixclient
(src/jobs/basejob.h). The repository ships only the class declaration
(basejob.h); the member-function bodies (basejob.cpp) are not present, so
every behavioural definition below is modelled from the specification and
from the doc comments in the header, as indicated in each doc comment.
The ErrorCode enumeration, the signal list and the constructor signature
(with its default argument) are taken directly from the header.
-/

namespace QMatrixClient

/-- HTTP method of a job, from basejob.h line 35:
enum class JobHttpType \x7b GetJob, PutJob, PostJob \x7d. -/
inductive JobHttpType where
  | GetJob
  | PutJob
  | PostJob
  deriving DecidableEq, Repr

/-- Value of BaseJob::ErrorCode::NoError, basejob.h line 43. -/
def NoError : Nat := 0

/-- Value of BaseJob::ErrorCode::NetworkError, basejob.h line 43. -/
def NetworkError : Nat := 100

/-- Value of BaseJob::ErrorCode::JsonParseError, basejob.h line 44:
follows NetworkError = 100 with no initializer, so it is 101 by the
implicit-increment rule of C++ enumerations. -/
def JsonParseError : Nat := 101

/-- Value of BaseJob::ErrorCode::TimeoutError, basejob.h line 44:
second enumerator after NetworkError = 100, hence 102. -/
def TimeoutError : Nat := 102

/-- Value of BaseJob::ErrorCode::ContentAccessError, basejob.h line 44:
third enumerator after NetworkError = 100, hence 103. -/
def ContentAccessError : Nat := 103

/-- Value of BaseJob::ErrorCode::UserDefinedError, basejob.h line 45. -/
def UserDefinedError : Nat := 512

/-- The five life-cycle states of a job, from the spec state machine:
Created, Running, AwaitingReply, Finished, Abandoned. -/
inductive Phase where
  | Created
  | Running
  | AwaitingReply
  | Finished
  | Abandoned
  deriving DecidableEq, Repr

/-- The four observer notifications declared as signals in basejob.h
lines 85-107: finished, result, success, failure. -/
inductive Event where
  | finished
  | result
  | success
  | failure
  deriving DecidableEq, Repr

/-- The three overridable pipeline stages of reply processing,
declared in basejob.h lines 124, 134 and 144. -/
inductive Stage where
  | checkReply
  | parseReply
  | parseJson
  deriving DecidableEq, Repr

/-- A minimal JSON document value, standing in for QJsonDocument.
JSON serialization is an external collaborator of the repository
(Qt), so only the shape needed by the pipeline is modelled. -/
inductive Json where
  | null
  | bool (b : Bool)
  | num (n : Int)
  | str (s : String)
  | arr (xs : List Json)
  | obj (fields : List (String × Json))

/-- The observable state of one BaseJob instance. The trace field
records every notification dispatched so far, in dispatch order;
ownsTransport models the pendingTransportHandle of the spec data
model. -/
structure JobState where
  httpType : JobHttpType
  name : String
  requiresAuth : Bool
  phase : Phase
  errorCode : Nat
  errorText : String
  ownsTransport : Bool
  trace : List Event
  deriving DecidableEq, Repr

/-- A transport reply as delivered by the external transport provider:
an HTTP status, a raw body, and whether a network-layer error was
reported for the exchange. -/
structure Reply where
  status : Nat
  body : String
  networkError : Bool
  deriving DecidableEq, Repr

/-- Modelled from the spec: the body of the BaseJob constructor
(basejob.h lines 47-48) is not under src/; the spec says a job is
created from a method, a name and an auth-requirement flag, starting
in state Created with no error, no transport handle and no
notifications dispatched. The ConnectionData pointer is an external
collaborator and is not part of the observable state. -/
def mkJob (t : JobHttpType) (name : String) (needsToken : Bool) : JobState :=
  { httpType := t
    name := name
    requiresAuth := needsToken
    phase := Phase.Created
    errorCode := NoError
    errorText := ""
    ownsTransport := false
    trace := [] }

/-- Construction without supplying the auth-requirement flag: the
declaration at basejob.h line 48 gives the parameter needsToken the
default argument true, so omitting it constructs with true. -/
def mkJobDefault (t : JobHttpType) (name : String) : JobState :=
  mkJob t name true

/-- Accessor error(), basejob.h line 62: returns the current error code. -/
def error (st : JobState) : Nat :=
  st.errorCode

/-- Accessor errorString(), basejob.h line 63: returns the error text. -/
def errorString (st : JobState) : String :=
  st.errorText

/-- Modelled from the spec: the body of BaseJob::setError (declared at
basejob.h line 160) is not under src/; the spec says setError sets
errorCode if not already set to a non-zero value, and that calls after
a non-zero code is set are no-ops (first-failure-wins). -/
def setError (code : Nat) (st : JobState) : JobState :=
  if st.errorCode = 0 then { st with errorCode := code } else st

/-- Modelled from the spec: the body of BaseJob::setErrorText (declared
at basejob.h line 165) is not under src/; the spec says it sets
errorText unconditionally. -/
def setErrorText (text : String) (st : JobState) : JobState :=
  { st with errorText := text }

/-- Modelled from the spec: the body of BaseJob::emitResult (declared at
basejob.h line 177) is not under src/; the spec says emitResult
dispatches finished, then result, then exactly one of success (when
errorCode = 0) or failure (otherwise), schedules release of the job
resources and is a no-op after the first call and under abandonment. -/
def emitResult (st : JobState) : JobState :=
  if st.phase = Phase.Finished ∨ st.phase = Phase.Abandoned then st
  else
    { st with
      phase := Phase.Finished
      ownsTransport := false
      trace := st.trace ++
        [Event.finished, Event.result,
         if st.errorCode = 0 then Event.success else Event.failure] }

/-- Modelled from the spec: the body of BaseJob::fail (declared at
basejob.h line 184) is not under src/; the spec says fail finishes the
job with a failure status, setting the error code (first-failure-wins)
and the error text and dispatching the terminal notifications. The
definition is written in expanded, field-level form; theorem claim_C6
proves it equal to the composition setError, setErrorText, emitResult
that the spec gives for it. -/
def fail (code : Nat) (text : String) (st : JobState) : JobState :=
  if st.phase = Phase.Finished ∨ st.phase = Phase.Abandoned then
    { st with
      errorCode := if st.errorCode = 0 then code else st.errorCode
      errorText := text }
  else
    { st with
      errorCode := if st.errorCode = 0 then code else st.errorCode
      errorText := text
      phase := Phase.Finished
      ownsTransport := false
      trace := st.trace ++
        [Event.finished, Event.result,
         if (if st.errorCode = 0 then code else st.errorCode) = 0 then
           Event.success
         else Event.failure] }

/-- Modelled from the spec: the body of BaseJob::start (declared at
basejob.h line 51) is not under src/; the spec says start requires
state Created, submits the request through the transport provider
(taking ownership of the in-flight operation) and transitions through
Running to AwaitingReply; transport acknowledgement of the send is
immediate in this model. -/
def start (st : JobState) : JobState :=
  if st.phase = Phase.Created then
    { st with phase := Phase.AwaitingReply, ownsTransport := true }
  else st

/-- Modelled from the spec: the body of BaseJob::abandon (declared at
basejob.h line 60) is not under src/; the spec says abandon cancels
the in-flight transport operation, transitions to Abandoned, releases
owned resources, dispatches no notification, and is a no-op when
called again or after natural termination. -/
def abandon (st : JobState) : JobState :=
  if st.phase = Phase.Finished ∨ st.phase = Phase.Abandoned then st
  else { st with phase := Phase.Abandoned, ownsTransport := false }

/-- Modelled from the spec: the body of the default BaseJob::checkReply
(declared at basejob.h line 124) is not under src/; per the header doc
comment it checks the received reply for sanity, calling setError and
setErrorText on rejection and returning whether body processing should
continue. A reply with a reported network-layer error is rejected with
NetworkError; any other reply passes. -/
def checkReply (r : Reply) (st : JobState) : JobState × Bool :=
  if r.networkError then
    (setErrorText "network error" (setError NetworkError st), false)
  else (st, true)

/-- Modelled from the spec: the body of the default BaseJob::parseJson
(declared at basejob.h line 144) is not under src/; per the header doc
comment the default emits a successful result without analysing the
JSON, i.e. it calls emitResult. -/
def parseJson (_doc : Json) (st : JobState) : JobState :=
  emitResult st

/-- Modelled from the spec: the body of the default BaseJob::parseReply
(declared at basejob.h line 134) is not under src/; per the header doc
comment the default parses the raw bytes into a JSON document and
calls parseJson if it is valid JSON, and otherwise fails with the
JSON-parse-error code. The JSON decoder itself is the external Qt
collaborator, so it is passed in as the parse argument. -/
def parseReply (parse : String → Option Json) (body : String)
    (st : JobState) : JobState :=
  match parse body with
  | some doc => parseJson doc st
  | none => fail JsonParseError "JSON parse error" st

/-- Modelled from the spec: the body of the private slot
BaseJob::gotReply (declared at basejob.h line 192) is not under src/;
the spec says a reply event delivered when the job is no longer
AwaitingReply (abandoned or already finished) is processed as a no-op,
and otherwise the pipeline runs checkReply then parseReply then
parseJson in fixed order, halting (and emitting the result) as soon as
checkReply rejects the reply or leaves a non-zero error code. -/
def gotReply (parse : String → Option Json) (r : Reply)
    (st : JobState) : JobState :=
  if st.phase = Phase.AwaitingReply then
    let p := checkReply r st
    if p.2 = true ∧ p.1.errorCode = 0 then parseReply parse r.body p.1
    else emitResult p.1
  else st

/-- The list of pipeline stages that execute when a reply is processed
by gotReply, in execution order; transcribed from the same control
flow as gotReply (the default parseReply enters parseJson exactly when
the body decodes as JSON). -/
def gotReplyStages (parse : String → Option Json) (r : Reply)
    (st : JobState) : List Stage :=
  if st.phase = Phase.AwaitingReply then
    let p := checkReply r st
    if p.2 = true ∧ p.1.errorCode = 0 then
      match parse r.body with
      | some _ => [Stage.checkReply, Stage.parseReply, Stage.parseJson]
      | none => [Stage.checkReply, Stage.parseReply]
    else [Stage.checkReply]
  else []

/-- Modelled from the spec: the body of the slot BaseJob::timeout
(declared at basejob.h line 188) is not under src/; the spec says a
timeout event while AwaitingReply invokes fail with the timeout error
code, exactly like a pipeline-stage failure, and a timeout event
delivered after termination or abandonment has no effect. -/
def timeout (st : JobState) : JobState :=
  if st.phase = Phase.AwaitingReply then
    fail TimeoutError "The job has timed out" st
  else st

/-- A concrete stand-in for the external JSON decoder, used to
instantiate the theorems on concrete inputs: it recognises the empty
object and rejects everything else. -/
def demoParse (s : String) : Option Json :=
  if s = "{}" then some (Json.obj []) else none

/-- A concrete successful reply: HTTP 200 with body the empty object. -/
def demoReplyOk : Reply :=
  { status := 200, body := "{}", networkError := false }

/-- A concrete reply whose body is not JSON. -/
def demoReplyBad : Reply :=
  { status := 200, body := "not json", networkError := false }

/-- A concrete freshly started job. -/
def demoStarted : JobState :=
  start (mkJobDefault JobHttpType.GetJob "demo")


/-- A concrete reply carrying a transport-level network error. -/
def demoReplyNet : Reply :=
  { status := 0, body := "", networkError := true }

/-- C9: the error-code constants are fixed and pairwise distinct:
NoError = 0, NetworkError = 100, JsonParseError = 101, TimeoutError =
102, ContentAccessError = 103, and every built-in non-zero code is
strictly below UserDefinedError = 512, so extension codes never
collide with built-in ones. -/
theorem claim_C9 :
    NoError = 0 ∧ NetworkError = 100 ∧ JsonParseError = 101
      ∧ TimeoutError = 102 ∧ ContentAccessError = 103
      ∧ UserDefinedError = 512
      ∧ List.Pairwise (fun a b => a ≠ b)
          [NoError, NetworkError, JsonParseError, TimeoutError,
           ContentAccessError, UserDefinedError]
      ∧ NetworkError < UserDefinedError
      ∧ JsonParseError < UserDefinedError
      ∧ TimeoutError < UserDefinedError
      ∧ ContentAccessError < UserDefinedError := by
  decide

/-- C10: constructing a job without supplying the auth-requirement flag
yields a job that requires authentication, because the constructor
parameter needsToken defaults to true (basejob.h line 48). -/
theorem claim_C10 (t : JobHttpType) (n : String) :
    (mkJobDefault t n).requiresAuth = true := by
  rfl

/-- C4: setError obeys first-failure-wins: on a job whose error code is
still unset, after setError a followed by setError b with a nonzero,
the stored code is a, and the second call is a no-op on the whole
state. -/
theorem claim_C4 (st : JobState) (a b : Nat) (ha : a ≠ 0)
    (h0 : st.errorCode = 0) :
    (setError b (setError a st)).errorCode = a
      ∧ setError b (setError a st) = setError a st := by
  simp [setError, h0, ha]

/-- Witness for C4 at a concrete job and codes 5 then 6. -/
theorem claim_C4_witness :
    (setError 6 (setError 5 (mkJobDefault JobHttpType.GetJob "w"))).errorCode = 5
      ∧ setError 6 (setError 5 (mkJobDefault JobHttpType.GetJob "w"))
          = setError 5 (mkJobDefault JobHttpType.GetJob "w") :=
  claim_C4 (mkJobDefault JobHttpType.GetJob "w") 5 6 (by decide) rfl

/-- C6: fail(code, text) is observationally equal to the sequence
setError(code); setErrorText(text); emitResult() on the same job. -/
theorem claim_C6 (code : Nat) (text : String) (st : JobState) :
    fail code text st = emitResult (setErrorText text (setError code st)) := by
  by_cases h0 : st.errorCode = 0 <;>
    by_cases hp : st.phase = Phase.Finished ∨ st.phase = Phase.Abandoned <;>
      simp [fail, emitResult, setErrorText, setError, h0, hp]

/-- C3: after abandon, none of the four notifications is ever
dispatched for the job (a queued reply event, a timeout event and a
direct emitResult are all trace-preserving no-ops), and abandon is
idempotent and a no-op after natural termination. -/
theorem claim_C3 (parse : String → Option Json) (r : Reply) (st : JobState) :
    abandon (abandon st) = abandon st
      ∧ (st.phase = Phase.Finished → abandon st = st)
      ∧ (abandon st).trace = st.trace
      ∧ (gotReply parse r (abandon st)).trace = st.trace
      ∧ (timeout (abandon st)).trace = st.trace
      ∧ (emitResult (abandon st)).trace = st.trace := by
  by_cases h : st.phase = Phase.Finished ∨ st.phase = Phase.Abandoned
  · rcases h with h | h <;> simp [abandon, gotReply, timeout, emitResult, h]
  · have hf : ¬ st.phase = Phase.Finished := fun hh => h (Or.inl hh)
    have hb : ¬ st.phase = Phase.Abandoned := fun hh => h (Or.inr hh)
    simp [abandon, gotReply, timeout, emitResult, hf, hb]

/-- Witness for C3 on a concrete naturally terminated job: abandoning
it is a no-op and a queued reply event after the abandon call leaves
the dispatched notifications unchanged. -/
theorem claim_C3_witness :
    abandon (emitResult demoStarted) = emitResult demoStarted
      ∧ (gotReply demoParse demoReplyOk (abandon (emitResult demoStarted))).trace
          = (emitResult demoStarted).trace := by
  have h := claim_C3 demoParse demoReplyOk (emitResult demoStarted)
  exact ⟨h.2.1 rfl, h.2.2.2.1⟩

/-- C1: for every freshly started job processing a reply, exactly one
terminal notification sequence fires, in the order finished, result,
then exactly one of success (when the error code is 0) or failure
(when it is nonzero); for an abandoned job, neither a reply event nor
a timeout event nor emitResult dispatches any notification. -/
theorem claim_C1 (parse : String → Option Json) (r : Reply)
    (st st₁ : JobState)
    (h1 : st.phase = Phase.AwaitingReply) (h2 : st.errorCode = 0)
    (h3 : st.trace = []) (h4 : st₁.phase = Phase.Abandoned) :
    ((gotReply parse r st).trace
          = [Event.finished, Event.result, Event.success]
        ∧ error (gotReply parse r st) = 0
      ∨ (gotReply parse r st).trace
          = [Event.finished, Event.result, Event.failure]
        ∧ error (gotReply parse r st) ≠ 0)
      ∧ (gotReply parse r st₁).trace = st₁.trace
      ∧ (timeout st₁).trace = st₁.trace
      ∧ (emitResult st₁).trace = st₁.trace := by
  refine ⟨?_, ?_, ?_, ?_⟩
  · by_cases hn : r.networkError
    · right
      simp [gotReply, checkReply, parseReply, parseJson, emitResult, fail,
            setError, setErrorText, error, h1, h2, h3, hn, NetworkError]
    · cases hp : parse r.body with
      | some doc =>
          left
          simp [gotReply, checkReply, parseReply, parseJson, emitResult,
                error, h1, h2, h3, hn, hp]
      | none =>
          right
          simp [gotReply, checkReply, parseReply, fail, error,
                h1, h2, h3, hn, hp, JsonParseError]
  · simp [gotReply, h4]
  · simp [timeout, h4]
  · simp [emitResult, h4]

/-- Witness for C1 on a concrete started job receiving a well-formed
reply, and on the same job abandoned. -/
theorem claim_C1_witness :
    ((gotReply demoParse demoReplyOk demoStarted).trace
          = [Event.finished, Event.result, Event.success]
        ∧ error (gotReply demoParse demoReplyOk demoStarted) = 0
      ∨ (gotReply demoParse demoReplyOk demoStarted).trace
          = [Event.finished, Event.result, Event.failure]
        ∧ error (gotReply demoParse demoReplyOk demoStarted) ≠ 0)
      ∧ (gotReply demoParse demoReplyOk (abandon demoStarted)).trace
          = (abandon demoStarted).trace
      ∧ (timeout (abandon demoStarted)).trace = (abandon demoStarted).trace
      ∧ (emitResult (abandon demoStarted)).trace = (abandon demoStarted).trace :=
  claim_C1 demoParse demoReplyOk demoStarted (abandon demoStarted) rfl rfl rfl rfl

/-- C2: the default parseReply forwards a successfully decoded body to
parseJson and, when decoding fails, calls fail with the
JSON-parse-error code, so a started job receiving a non-JSON body
terminates with error() = JsonParseError and dispatches failure. -/
theorem claim_C2 (parse parseG : String → Option Json) (r : Reply)
    (st stG : JobState) (bodyG : String) (docG : Json)
    (h1 : st.phase = Phase.AwaitingReply) (h2 : st.errorCode = 0)
    (h3 : st.trace = []) (h4 : r.networkError = false)
    (h5 : parse r.body = none) (hG : parseG bodyG = some docG) :
    parseReply parseG bodyG stG = parseJson docG stG
      ∧ parseReply parse r.body st = fail JsonParseError "JSON parse error" st
      ∧ error (gotReply parse r st) = JsonParseError
      ∧ (gotReply parse r st).trace
          = [Event.finished, Event.result, Event.failure] := by
  refine ⟨?_, ?_, ?_, ?_⟩
  · simp [parseReply, hG]
  · simp [parseReply, h5]
  · simp [gotReply, checkReply, parseReply, fail, error,
          h1, h2, h3, h4, h5, JsonParseError]
  · simp [gotReply, checkReply, parseReply, fail,
          h1, h2, h3, h4, h5, JsonParseError]

/-- Witness for C2: forwarding on the body of the empty object, and the
JSON-parse-error termination on a concrete non-JSON body. -/
theorem claim_C2_witness :
    parseReply demoParse "{}" demoStarted
        = parseJson (Json.obj []) demoStarted
      ∧ parseReply demoParse demoReplyBad.body demoStarted
          = fail JsonParseError "JSON parse error" demoStarted
      ∧ error (gotReply demoParse demoReplyBad demoStarted) = JsonParseError
      ∧ (gotReply demoParse demoReplyBad demoStarted).trace
          = [Event.finished, Event.result, Event.failure] :=
  claim_C2 demoParse demoParse demoReplyBad demoStarted demoStarted
    "{}" (Json.obj []) rfl rfl rfl rfl rfl rfl

/-- C5: reply processing executes the stages in the fixed order
checkReply, parseReply, parseJson — the executed-stage list is always
a prefix of that sequence — and once a stage terminates the job (a
rejected reply or a non-zero error code after checkReply, or a JSON
decoding failure in parseReply) no later stage executes. -/
theorem claim_C5 (parse : String → Option Json) (r : Reply) (st : JobState)
    (h1 : st.phase = Phase.AwaitingReply) :
    gotReplyStages parse r st ∈
        [[Stage.checkReply],
         [Stage.checkReply, Stage.parseReply],
         [Stage.checkReply, Stage.parseReply, Stage.parseJson]]
      ∧ ((checkReply r st).2 = false ∨ (checkReply r st).1.errorCode ≠ 0 →
          gotReplyStages parse r st = [Stage.checkReply])
      ∧ (parse r.body = none → Stage.parseJson ∉ gotReplyStages parse r st) := by
  refine ⟨?_, ?_, ?_⟩
  · by_cases hc : (checkReply r st).2 = true ∧ (checkReply r st).1.errorCode = 0
    · cases hp : parse r.body with
      | some doc => simp [gotReplyStages, h1, hc, hp]
      | none => simp [gotReplyStages, h1, hc, hp]
    · simp [gotReplyStages, h1, hc]
  · intro hterm
    have hcond : ¬ ((checkReply r st).2 = true
        ∧ (checkReply r st).1.errorCode = 0) := by
      rcases hterm with ht | ht
      · rintro ⟨hA, _⟩
        rw [ht] at hA
        cases hA
      · rintro ⟨_, hB⟩
        exact ht hB
    simp [gotReplyStages, h1, hcond]
  · intro hp
    by_cases hc : (checkReply r st).2 = true ∧ (checkReply r st).1.errorCode = 0
    · simp [gotReplyStages, h1, hc, hp]
    · simp [gotReplyStages, h1, hc]

/-- Witness for C5: a non-JSON body stops the pipeline before
parseJson, and a reply rejected by checkReply stops it after
checkReply. -/
theorem claim_C5_witness :
    gotReplyStages demoParse demoReplyBad demoStarted ∈
        [[Stage.checkReply],
         [Stage.checkReply, Stage.parseReply],
         [Stage.checkReply, Stage.parseReply, Stage.parseJson]]
      ∧ Stage.parseJson ∉ gotReplyStages demoParse demoReplyBad demoStarted
      ∧ gotReplyStages demoParse demoReplyNet demoStarted = [Stage.checkReply] := by
  have h := claim_C5 demoParse demoReplyBad demoStarted rfl
  have h2 := claim_C5 demoParse demoReplyNet demoStarted rfl
  exact ⟨h.1, h.2.2 rfl, h2.2.1 (Or.inl rfl)⟩

/-- C7: the default parseJson treats the absence of further validation
as success and calls emitResult, so a started job with the default
pipeline receiving HTTP 200 with a body that decodes as JSON
terminates with error() = 0 and dispatches success. -/
theorem claim_C7 (parse : String → Option Json) (r : Reply)
    (st : JobState) (doc : Json)
    (h1 : st.phase = Phase.AwaitingReply) (h2 : st.errorCode = 0)
    (h3 : st.trace = []) (h4 : r.networkError = false)
    (h5 : r.status = 200) (h6 : parse r.body = some doc) :
    parseJson doc st = emitResult st
      ∧ error (gotReply parse r st) = 0
      ∧ (gotReply parse r st).trace
          = [Event.finished, Event.result, Event.success] := by
  refine ⟨rfl, ?_, ?_⟩
  · simp [gotReply, checkReply, parseReply, parseJson, emitResult, error,
          h1, h2, h3, h4, h6]
  · simp [gotReply, checkReply, parseReply, parseJson, emitResult,
          h1, h2, h3, h4, h6]

/-- Witness for C7 on a concrete started job receiving HTTP 200 with
body the empty object. -/
theorem claim_C7_witness :
    parseJson (Json.obj []) demoStarted = emitResult demoStarted
      ∧ error (gotReply demoParse demoReplyOk demoStarted) = 0
      ∧ (gotReply demoParse demoReplyOk demoStarted).trace
          = [Event.finished, Event.result, Event.success] :=
  claim_C7 demoParse demoReplyOk demoStarted (Json.obj [])
    rfl rfl rfl rfl rfl rfl

/-- C8: a timeout event while the job awaits its reply goes through the
same fail path as a pipeline-stage failure and terminates the job with
error() = TimeoutError and exactly one failure dispatch. -/
theorem claim_C8 (st : JobState)
    (h1 : st.phase = Phase.AwaitingReply) (h2 : st.errorCode = 0)
    (h3 : st.trace = []) :
    timeout st = fail TimeoutError "The job has timed out" st
      ∧ error (timeout st) = TimeoutError
      ∧ (timeout st).trace = [Event.finished, Event.result, Event.failure]
      ∧ (timeout st).trace.count Event.failure = 1 := by
  have hfail : timeout st = fail TimeoutError "The job has timed out" st := by
    simp [timeout, h1]
  have ht : (timeout st).trace = [Event.finished, Event.result, Event.failure] := by
    simp [hfail, fail, h1, h2, h3, TimeoutError]
  refine ⟨hfail, ?_, ht, ?_⟩
  · simp [hfail, fail, error, h1, h2, TimeoutError]
  · rw [ht]
    decide

/-- Witness for C8 on a concrete freshly started job. -/
theorem claim_C8_witness :
    timeout demoStarted = fail TimeoutError "The job has timed out" demoStarted
      ∧ error (timeout demoStarted) = TimeoutError
      ∧ (timeout demoStarted).trace
          = [Event.finished, Event.result, Event.failure]
      ∧ (timeout demoStarted).trace.count Event.failure = 1 :=
  claim_C8 demoStarted rfl rfl rfl

end QMatrixClient
